import Mathlib

/-!
Shallow embedding of the MTG prerelease spoiler dashboard
(`src/unnamed/part_000`, together with the near-duplicate variant
`src/src/App.jsx`): release resolution, paginated card collection, the
color/cost sort, view derivation (search and mana filter), selection
toggling and the countdown clock.

Machine numbers are modelled as `Int`/`Nat`: every numeric value the
embedded code manipulates (timestamps in milliseconds, color ranks, mana
values) is an integer far below 2^53, where JavaScript number arithmetic
is exact.
-/

namespace MtgSpoiler

/-- One face of a multi-faced card (`card_faces[i]`): the per-face `colors`
array and the per-face `image_uris.normal` reference, each possibly absent. -/
structure Face where
  colors : Option (List String)
  image : Option String
deriving DecidableEq

/-- A card as consumed from the card-search endpoint.  `colors` and
`card_faces` may be absent (JavaScript `undefined`), which is distinct from
an empty list; `image` stands for `image_uris.normal`; `cmc` is the
converted mana cost. -/
structure Card where
  id : String
  name : String
  colors : Option (List String)
  card_faces : Option (List Face)
  image : Option String
  cmc : Nat
deriving DecidableEq

/-- The `COLOR_ORDER` object (part_000 lines 33-37), as a lookup returning
`none` for keys outside the object. -/
def COLOR_ORDER (c : String) : Option Nat :=
  if c = "W" then some 0
  else if c = "U" then some 1
  else if c = "B" then some 2
  else if c = "R" then some 3
  else if c = "G" then some 4
  else if c = "M" then some 5
  else if c = "C" then some 6
  else none

/-- Function `getColorIndex` (part_000 lines 123-127).  It reads only the top-level
`colors` field: `!c.colors || c.colors.length === 0` yields
`COLOR_ORDER['C'] = 6`, more than one color yields `COLOR_ORDER['M'] = 5`,
and a single color is looked up with fallback `?? 7`. -/
def getColorIndex (c : Card) : Nat :=
  match c.colors with
  | none => 6
  | some cs =>
    if cs.length = 0 then 6
    else if cs.length > 1 then 5
    else (COLOR_ORDER (cs.headD "")).getD 7

/-- The sort comparator body (part_000 lines 129-132):
`colorA !== colorB ? colorA - colorB : a.cmc - b.cmc`. -/
def cardCompare (a b : Card) : Int :=
  if getColorIndex a ≠ getColorIndex b
  then (getColorIndex a : Int) - getColorIndex b
  else (a.cmc : Int) - b.cmc

/-- The "`a` may come before `b`" relation of the comparator: comparator
value at most `0`. -/
def cardLE (a b : Card) : Prop := cardCompare a b ≤ 0

instance : DecidableRel cardLE := fun a b =>
  inferInstanceAs (Decidable (cardCompare a b ≤ 0))

/-- Relation `cardLE` is the lexicographic order on (color rank, cmc). -/
theorem cardLE_iff (a b : Card) :
    cardLE a b ↔
      (getColorIndex a < getColorIndex b ∨
        (getColorIndex a = getColorIndex b ∧ a.cmc ≤ b.cmc)) := by
  unfold cardLE cardCompare
  split
  · rename_i h
    constructor
    · intro hle
      exact Or.inl (by omega)
    · intro hor
      rcases hor with h1 | h2
      · omega
      · exact absurd h2.1 h
  · rename_i h
    rw [not_not] at h
    constructor
    · intro hle
      exact Or.inr ⟨h, by omega⟩
    · intro hor
      rcases hor with h1 | h2
      · omega
      · omega

instance : IsTotal Card cardLE :=
  ⟨fun a b => by rw [cardLE_iff, cardLE_iff]; omega⟩

instance : IsTrans Card cardLE :=
  ⟨fun a b c hab hbc => by
    rw [cardLE_iff] at hab hbc ⊢; omega⟩

/-- The sort `allFetchedCards.sort(comparator)` (part_000 line 122).  The ECMAScript
specification makes `Array.prototype.sort` with a consistent comparator
produce the stable sort by that comparator; `List.insertionSort` by the
comparator's "at most 0" relation is exactly that stable sort. -/
def sortCards (l : List Card) : List Card := List.insertionSort cardLE l

/-- The sort key the comparator compares: (color rank, converted cost). -/
def sortKey (c : Card) : Nat × Nat := (getColorIndex c, c.cmc)

/-- JavaScript `String.prototype.toLowerCase()` on the names and search
terms handled here: lower-case each character. -/
def jsToLower (s : String) : String := String.mk (s.data.map Char.toLower)

/-- JavaScript `s.includes(search)`: `search` occurs contiguously in `s`. -/
def jsIncludes (s search : String) : Bool := decide (search.data <:+: s.data)

/-- The search predicate (part_000 line 181):
`c.name.toLowerCase().includes(searchTerm.toLowerCase())`. -/
def matchesSearch (searchTerm : String) (c : Card) : Bool :=
  jsIncludes (jsToLower c.name) (jsToLower searchTerm)

/-- The expression `c.colors || c.card_faces?.[0]?.colors || []`
(part_000 line 184 and, for the dots shown on a card, line 337).  A present
empty array is truthy in JavaScript, so only an absent `colors` field falls
through to the first face. -/
def cardColors (c : Card) : List String :=
  match c.colors with
  | some cs => cs
  | none =>
    match c.card_faces with
    | some (f :: _) => f.colors.getD []
    | _ => []

/-- The color-filter branch of the view predicate (part_000 lines 183-188).
`none` stands for `activeFilter === null` (no filter active). -/
def passesFilter (activeFilter : Option String) (c : Card) : Bool :=
  match activeFilter with
  | none => true
  | some f =>
    let cs := cardColors c
    if f = "C" then cs.length == 0
    else if f = "M" then decide (cs.length > 1)
    else cs.length == 1 && cs.headD "" == f

/-- The derived view `filteredCards` (part_000 lines 178-191): search
predicate first (early `return false`), then the color filter. -/
def filteredCards (cards : List Card) (searchTerm : String)
    (activeFilter : Option String) : List Card :=
  cards.filter fun c =>
    if matchesSearch searchTerm c then passesFilter activeFilter c else false

/-- The image shown for a card (part_000 line 336):
`card.image_uris?.normal || card.card_faces?.[0]?.image_uris?.normal`. -/
def cardImage (c : Card) : Option String :=
  match c.image with
  | some i => some i
  | none =>
    match c.card_faces with
    | some (f :: _) => f.image
    | _ => none

/-- Function `toggleSelection` (part_000 lines 171-176).  The JavaScript
`Set` is modelled by its membership, a `Finset` of ids. -/
def toggleSelection (selectedCards : Finset String) (id : String) :
    Finset String :=
  if id ∈ selectedCards then selectedCards.erase id
  else insert id selectedCards

/-- The countdown value `{d, h, m, s}`. -/
structure TimeLeft where
  d : Nat
  h : Nat
  m : Nat
  s : Nat
deriving DecidableEq

/-- One firing of the countdown interval (part_000 lines 154-166).
Instants are millisecond timestamps.  The source computes each field by a
real division, a `%`, and a `Math.floor`; for a nonnegative integer
millisecond difference these coincide exactly with the integer
division/modulo used here (the fractional part never moves `Math.floor`
across an integer, and all values stay far below 2^53, where JavaScript
arithmetic on integers is exact). -/
def tick (prereleaseDate now : Int) : TimeLeft :=
  let diff := prereleaseDate - now
  if diff ≤ 0 then ⟨0, 0, 0, 0⟩
  else
    let n := diff.toNat
    ⟨n / 86400000, n / 3600000 % 24, n / 60000 % 60, n / 1000 % 60⟩

/-- A release as consumed from the sets endpoint; `released_at` is its
parsed date as a millisecond timestamp. -/
structure SetInfo where
  code : String
  name : String
  set_type : String
  released_at : Int
deriving DecidableEq

/-- The date comparator `(a, b) => new Date(a.released_at) - new Date(b.released_at)`
(part_000 line 91) as its "may come before" relation. -/
def dateLE (a b : SetInfo) : Prop := a.released_at ≤ b.released_at

instance : DecidableRel dateLE := fun a b =>
  inferInstanceAs (Decidable (a.released_at ≤ b.released_at))

instance : IsTotal SetInfo dateLE := ⟨fun a b => Int.le_total _ _⟩

instance : IsTrans SetInfo dateLE := ⟨fun _ _ _ => Int.le_trans⟩

/-- The category test `['expansion', 'core', 'masters'].includes(s.set_type)`
(part_000 line 87). -/
def isTrackable (s : SetInfo) : Bool :=
  ["expansion", "core", "masters"].contains s.set_type

/-- The retention-window test (part_000 line 88):
`new Date(s.released_at) > new Date(now.getTime() - 1000*60*60*24*60)`. -/
def inWindow (now : Int) (s : SetInfo) : Bool :=
  decide (now - 1000 * 60 * 60 * 24 * 60 < s.released_at)

/-- Steps 1-3 of `fetchData` (part_000 lines 86-95): filter candidates,
sort by date (stable, as `sortCards`), take the first future set, else the
last (latest) candidate; `candidates[candidates.length - 1]` on an empty
array is `undefined`, i.e. `none`. -/
def resolveTarget (data : List SetInfo) (now : Int) : Option SetInfo :=
  let candidates := (data.filter fun s => isTrackable s).filter fun s =>
    inWindow now s
  let sorted := List.insertionSort dateLE candidates
  let futureSets := sorted.filter fun s => decide (now ≤ s.released_at)
  match futureSets with
  | t :: _ => some t
  | [] => sorted.getLast?

/-- One page of the paginated card search: the `data` array (absent on a
malformed response), the `has_more` flag, and the `next_page` reference. -/
structure Page where
  data : Option (List Card)
  has_more : Bool
  next_page : Option String
deriving DecidableEq

/-- The pagination loop (part_000 lines 101-119) over the sequence of
responses the source emits for the successive continuation references.
Each iteration appends the page's `data` (if present) and continues exactly
when `cardData.has_more && cardData.next_page` holds; an exhausted stream
means the source never answers, which the theorems exclude by hypothesis. -/
def collectLoop : List Page → List Card
  | [] => []
  | p :: rest =>
    let page := p.data.getD []
    if p.has_more && p.next_page.isSome then page ++ collectLoop rest
    else page

/-- The same loop over a stream whose entries may also be a thrown failure
(network error on `fetch`/`json`), which propagates out of the loop. -/
def collectLoopE : List (Except String Page) → Except String (List Card)
  | [] => Except.ok []
  | Except.error e :: _ => Except.error e
  | Except.ok p :: rest =>
    let page := p.data.getD []
    if p.has_more && p.next_page.isSome then
      match collectLoopE rest with
      | Except.ok more => Except.ok (page ++ more)
      | Except.error e => Except.error e
    else Except.ok page

/-- The component state which `fetchData` writes. -/
structure AppState where
  currentSet : Option SetInfo
  cards : List Card
  loading : Bool
deriving DecidableEq

/-- The whole `fetchData` effect (part_000 lines 78-142) as a function of
its inputs: the sets response (or a thrown failure), `now`, and the card
page stream.  `setCurrentSet(targetSet)` runs before the pagination loop,
so a mid-loop failure leaves `currentSet` set; the `catch` block only logs,
so `cards` keeps its initial `[]` on any thrown failure; the `finally`
block clears `loading` on every path. -/
def fetchData (setsResp : Except String (List SetInfo)) (now : Int)
    (stream : List (Except String Page)) : AppState :=
  match setsResp with
  | Except.error _ => ⟨none, [], false⟩
  | Except.ok data =>
    match resolveTarget data now with
    | none => ⟨none, [], false⟩
    | some targetSet =>
      match collectLoopE stream with
      | Except.error _ => ⟨some targetSet, [], false⟩
      | Except.ok cs => ⟨some targetSet, sortCards cs, false⟩

/-! Concrete inputs used by the example parts of the spec's testable
properties. -/

/-- A red card of cost 3 (sort example). -/
def exR : Card :=
  { id := "r", name := "R3", colors := some ["R"], card_faces := none,
    image := none, cmc := 3 }

/-- A colorless card of cost 1 (sort example). -/
def exC : Card :=
  { id := "c", name := "C1", colors := some [], card_faces := none,
    image := none, cmc := 1 }

/-- A white card of cost 1 (sort example). -/
def exW : Card :=
  { id := "w", name := "W1", colors := some ["W"], card_faces := none,
    image := none, cmc := 1 }

/-- A white-blue multicolor card of cost 2 (sort example). -/
def exUB : Card :=
  { id := "ub", name := "UB2", colors := some ["U", "B"], card_faces := none,
    image := none, cmc := 2 }

/-- A white-blue card (filter-exactness example). -/
def exWU : Card :=
  { id := "wu", name := "WU2", colors := some ["W", "U"], card_faces := none,
    image := none, cmc := 2 }

/-- The card of the search example. -/
def exBolt : Card :=
  { id := "bolt", name := "Lightning Bolt", colors := some ["R"],
    card_faces := none, image := none, cmc := 1 }

/-- A filler card for the pagination example pages. -/
def dummyCard : Card :=
  { id := "x", name := "X", colors := some ["G"], card_faces := none,
    image := none, cmc := 2 }

/-- Pagination example: page of 175 cards, `has_more = true`. -/
def page1 : Page :=
  { data := some (List.replicate 175 dummyCard), has_more := true,
    next_page := some "uri2" }

/-- Pagination example: second page of 175 cards, `has_more = true`. -/
def page2 : Page :=
  { data := some (List.replicate 175 dummyCard), has_more := true,
    next_page := some "uri3" }

/-- Pagination example: final page of 50 cards, `has_more = false`. -/
def page3 : Page :=
  { data := some (List.replicate 50 dummyCard), has_more := false,
    next_page := none }

/-- Resolution example: trackable release 10 days in the future. -/
def exAAA : SetInfo :=
  { code := "aaa", name := "AAA", set_type := "expansion",
    released_at := 864000000 }

/-- Resolution example: trackable release 5 days in the future. -/
def exBBB : SetInfo :=
  { code := "bbb", name := "BBB", set_type := "expansion",
    released_at := 432000000 }

/-- Resolution example: release 1 day ahead with an untrackable category. -/
def exCCC : SetInfo :=
  { code := "ccc", name := "CCC", set_type := "unsupported-type",
    released_at := 86400000 }

/-- A trackable release used by the mid-loop failure scenario. -/
def exSet : SetInfo :=
  { code := "tgt", name := "Target", set_type := "expansion",
    released_at := 100 }

/-- The card gathered before the mid-loop failure. -/
def exMidCard : Card :=
  { id := "mid", name := "Mid", colors := some ["W"], card_faces := none,
    image := none, cmc := 1 }

/-- The successfully fetched first page of the mid-loop failure scenario. -/
def exPageOk : Page :=
  { data := some [exMidCard], has_more := true, next_page := some "uri2" }

/-- The first face of the multi-faced example card. -/
def exFace : Face :=
  { colors := some ["W", "U"], image := some "face.jpg" }

/-- A multi-faced card with no top-level `colors` or image. -/
def exMdfc : Card :=
  { id := "mdfc", name := "MDFC", colors := none, card_faces := some [exFace],
    image := none, cmc := 5 }

/-- A genuinely colorless card of cost 0. -/
def exColorless : Card :=
  { id := "c0", name := "C0", colors := some [], card_faces := none,
    image := none, cmc := 0 }

/-! Theorems. -/

/-- C9: `toggleSelection` adds the given id to the selection set if absent
and removes it if present, and toggling the same id twice returns the
selection set to its original membership state, for every starting set and
every id. -/
theorem toggleSelection_spec (sel : Finset String) (id : String) :
    (id ∈ toggleSelection sel id ↔ id ∉ sel) ∧
    (∀ x, x ≠ id → (x ∈ toggleSelection sel id ↔ x ∈ sel)) ∧
    (∀ x, x ∈ toggleSelection (toggleSelection sel id) id ↔ x ∈ sel) := by
  by_cases h : id ∈ sel
  · have e1 : toggleSelection sel id = sel.erase id := by
      rw [toggleSelection, if_pos h]
    have e2 : toggleSelection (sel.erase id) id = insert id (sel.erase id) := by
      rw [toggleSelection, if_neg (by simp)]
    rw [e1, e2]
    refine ⟨by simp [h], fun x hx => by simp [Finset.mem_erase, hx], fun x => ?_⟩
    by_cases hx : x = id
    · subst hx; simp [h]
    · simp [Finset.mem_insert, Finset.mem_erase, hx]
  · have e1 : toggleSelection sel id = insert id sel := by
      rw [toggleSelection, if_neg h]
    have e2 : toggleSelection (insert id sel) id = (insert id sel).erase id := by
      rw [toggleSelection, if_pos (Finset.mem_insert_self id sel)]
    rw [e1, e2]
    refine ⟨by simp [h], fun x hx => by simp [Finset.mem_insert, hx], fun x => ?_⟩
    by_cases hx : x = id
    · subst hx; simp [h]
    · simp [Finset.mem_erase, Finset.mem_insert, hx]

/-- Witness for C9 at a concrete selection and id. -/
theorem toggleSelection_spec_witness :
    ("a" : String) ≠ "b" ∧
      (("a" : String) ∈ toggleSelection {"a"} "b" ↔
        ("a" : String) ∈ ({"a"} : Finset String)) :=
  ⟨by decide, (toggleSelection_spec {"a"} "b").2.1 "a" (by decide)⟩

/-- C10: after the startup fetch sequence finishes — target resolved, none
found, or a failure thrown at any point — the loading flag is false, so the
application leaves the loading screen. -/
theorem fetchData_clears_loading (setsResp : Except String (List SetInfo))
    (now : Int) (stream : List (Except String Page)) :
    (fetchData setsResp now stream).loading = false := by
  rcases setsResp with e | data
  · rfl
  · rcases h : resolveTarget data now with _ | t
    · simp [fetchData, h]
    · rcases h2 : collectLoopE stream with e | cs <;> simp [fetchData, h, h2]

/-- C8: the countdown tick yields all zeros exactly from the prerelease
instant on (including equality), and otherwise decomposes the millisecond
difference into whole days, hours below 24, minutes below 60 and seconds
below 60, by integer division and modulo; 1 day 2 hours 3 minutes 4 seconds
ahead yields `{1, 2, 3, 4}`. -/
theorem tick_spec :
    (∀ prereleaseDate now : Int, prereleaseDate ≤ now →
      tick prereleaseDate now = ⟨0, 0, 0, 0⟩) ∧
    (∀ prereleaseDate now : Int, now < prereleaseDate →
      (tick prereleaseDate now).d = (prereleaseDate - now).toNat / 86400000 ∧
      (tick prereleaseDate now).h =
        (prereleaseDate - now).toNat / 3600000 % 24 ∧
      (tick prereleaseDate now).m = (prereleaseDate - now).toNat / 60000 % 60 ∧
      (tick prereleaseDate now).s = (prereleaseDate - now).toNat / 1000 % 60 ∧
      (tick prereleaseDate now).h < 24 ∧
      (tick prereleaseDate now).m < 60 ∧
      (tick prereleaseDate now).s < 60 ∧
      (tick prereleaseDate now).d * 86400000 +
          (tick prereleaseDate now).h * 3600000 +
          (tick prereleaseDate now).m * 60000 +
          (tick prereleaseDate now).s * 1000 +
          (prereleaseDate - now).toNat % 1000 =
        (prereleaseDate - now).toNat) ∧
    tick 93784000 0 = ⟨1, 2, 3, 4⟩ ∧ tick 0 0 = ⟨0, 0, 0, 0⟩ := by
  refine ⟨?_, ?_, by decide, by decide⟩
  · intro pre now h
    simp only [tick]
    rw [if_pos (by omega)]
  · intro pre now h
    have e : tick pre now =
        ⟨(pre - now).toNat / 86400000, (pre - now).toNat / 3600000 % 24,
          (pre - now).toNat / 60000 % 60, (pre - now).toNat / 1000 % 60⟩ := by
      simp only [tick]
      rw [if_neg (by omega)]
    rw [e]
    refine ⟨rfl, rfl, rfl, rfl, Nat.mod_lt _ (by norm_num),
      Nat.mod_lt _ (by norm_num), Nat.mod_lt _ (by norm_num), ?_⟩
    show (pre - now).toNat / 86400000 * 86400000 +
        (pre - now).toNat / 3600000 % 24 * 3600000 +
        (pre - now).toNat / 60000 % 60 * 60000 +
        (pre - now).toNat / 1000 % 60 * 1000 +
        (pre - now).toNat % 1000 = (pre - now).toNat
    omega

/-- Witness for C8 in the terminal state. -/
theorem tick_spec_witness : tick 0 5 = ⟨0, 0, 0, 0⟩ :=
  tick_spec.1 0 5 (by decide)

/-- A list of strings has length one with head `f` exactly when it is `[f]`. -/
theorem length_one_headD {cs : List String} {f : String} :
    (cs.length = 1 ∧ cs.head?.getD "" = f) ↔ cs = [f] := by
  cases cs with
  | nil => simp
  | cons a tl =>
    cases tl with
    | nil => simp
    | cons b tl2 => simp

/-- C4: under an active color filter, a card passes iff: filter `"C"` and
zero colors; filter `"M"` and more than one color; or a specific color
letter and the card's colors are exactly that single letter.  Consequently
a `["W", "U"]` card fails filter `"W"` but passes filter `"M"`. -/
theorem passesFilter_spec :
    (∀ c : Card,
      (passesFilter (some "C") c = true ↔ cardColors c = []) ∧
      (passesFilter (some "M") c = true ↔ 1 < (cardColors c).length) ∧
      (∀ f, f ∈ (["W", "U", "B", "R", "G"] : List String) →
        (passesFilter (some f) c = true ↔ cardColors c = [f]))) ∧
    passesFilter (some "W") exWU = false ∧
    passesFilter (some "M") exWU = true := by
  refine ⟨?_, by decide, by decide⟩
  intro c
  refine ⟨?_, ?_, ?_⟩
  · simp [passesFilter, List.length_eq_zero]
  · simp [passesFilter]
  · intro f hf
    fin_cases hf <;> simp [passesFilter, length_one_headD]

/-- Witness for C4 at the white filter and the white-blue card. -/
theorem passesFilter_spec_witness :
    ("W" : String) ∈ (["W", "U", "B", "R", "G"] : List String) ∧
      (passesFilter (some "W") exWU = true ↔ cardColors exWU = ["W"]) :=
  ⟨by decide, (passesFilter_spec.1 exWU).2.2 "W" (by decide)⟩

/-- C2: the pagination loop appends each page's cards to the accumulator,
follows the continuation while the response signals more pages, and stops
exactly at the first page that does not signal one (further emissions are
never fetched); the pre-sort result is the concatenation of all pages in
emission order, so 3 pages of 175, 175 and 50 cards with
`has_more = true, true, false` yield exactly 400 cards. -/
theorem collectLoop_spec :
    (∀ ps : List Page,
      (∀ p ∈ ps.dropLast, p.has_more = true ∧ p.next_page.isSome = true) →
      collectLoop ps = (ps.map fun p => p.data.getD []).flatten) ∧
    (∀ (ps qs : List Page) (p : Page), ps.getLast? = some p →
      (p.has_more && p.next_page.isSome) = false →
      collectLoop (ps ++ qs) = collectLoop ps) ∧
    (collectLoop [page1, page2, page3]).length = 400 ∧
    collectLoop [page1, page2, page3] = List.replicate 400 dummyCard := by
  have hcons : ∀ (p : Page) (rest : List Page), collectLoop (p :: rest) =
      if p.has_more && p.next_page.isSome then
        p.data.getD [] ++ collectLoop rest
      else p.data.getD [] := fun _ _ => rfl
  have hconc : collectLoop [page1, page2, page3] =
      List.replicate 400 dummyCard := by
    have c1 : (page1.has_more && page1.next_page.isSome) = true := rfl
    have c2 : (page2.has_more && page2.next_page.isSome) = true := rfl
    have c3 : ¬ ((page3.has_more && page3.next_page.isSome) = true) := by
      intro h
      exact Bool.false_ne_true h
    have hstep : collectLoop [page1, page2, page3] =
        List.replicate 175 dummyCard ++ (List.replicate 175 dummyCard ++
          List.replicate 50 dummyCard) := by
      rw [hcons, if_pos c1, hcons, if_pos c2, hcons, if_neg c3]
      rfl
    rw [hstep, List.append_replicate_replicate, List.append_replicate_replicate]
  refine ⟨?_, ?_, by rw [hconc, List.length_replicate], hconc⟩
  · intro ps
    induction ps with
    | nil => intro _; rfl
    | cons p rest ih =>
      intro hmid
      cases rest with
      | nil => cases hb : (p.has_more && p.next_page.isSome) <;>
          simp [collectLoop, hb]
      | cons q rest2 =>
        have hp := hmid p (by rw [List.dropLast_cons₂]; exact List.mem_cons_self _ _)
        have hcond : (p.has_more && p.next_page.isSome) = true := by
          rw [hp.1, hp.2]; rfl
        have hrest : ∀ x ∈ (q :: rest2).dropLast,
            x.has_more = true ∧ x.next_page.isSome = true := by
          intro x hx
          exact hmid x (by rw [List.dropLast_cons₂]; exact List.mem_cons_of_mem _ hx)
        rw [hcons, if_pos hcond, ih hrest]
        simp
  · intro ps qs p hlast hstop
    induction ps with
    | nil => cases hlast
    | cons a rest ih =>
      cases rest with
      | nil =>
        have ha : a = p := by simpa using hlast
        subst ha
        cases qs with
        | nil => rfl
        | cons r qs2 => simp [collectLoop, hstop]
      | cons b rest2 =>
        rw [List.getLast?_cons_cons] at hlast
        have ih2 := ih hlast
        cases hc : (a.has_more && a.next_page.isSome) with
        | false =>
          have hcn : ¬ ((a.has_more && a.next_page.isSome) = true) := by
            simp [hc]
          rw [List.cons_append, hcons, if_neg hcn, hcons, if_neg hcn]
        | true =>
          rw [List.cons_append, hcons, if_pos hc, hcons, if_pos hc, ih2]

/-- Witness for C2 at the three example pages. -/
theorem collectLoop_spec_witness :
    collectLoop [page1, page2, page3] =
      ([page1, page2, page3].map fun p => p.data.getD []).flatten :=
  collectLoop_spec.1 [page1, page2, page3] (by decide)

/-- C7: the derived view returns exactly the cards whose lower-cased name
contains the lower-cased search text (empty search text matches every card,
and `"bolt"` matches `"Lightning Bolt"`) and that pass the active color
filter; the output preserves the relative order of the input list. -/
theorem filteredCards_spec :
    (∀ (cards : List Card) (searchTerm : String) (activeFilter : Option String)
        (c : Card),
      c ∈ filteredCards cards searchTerm activeFilter ↔
        c ∈ cards ∧ (jsToLower searchTerm).data <:+: (jsToLower c.name).data ∧
          passesFilter activeFilter c = true) ∧
    (∀ (cards : List Card) (searchTerm : String) (activeFilter : Option String),
      (filteredCards cards searchTerm activeFilter).Sublist cards) ∧
    (∀ c : Card, matchesSearch "" c = true) ∧
    matchesSearch "bolt" exBolt = true := by
  have haux : ∀ (m p : Bool), (if m = true then p else false) = true ↔
      m = true ∧ p = true := by decide
  refine ⟨?_, ?_, ?_, by decide⟩
  · intro cards searchTerm activeFilter c
    rw [filteredCards, List.mem_filter, haux]
    simp [matchesSearch, jsIncludes, and_assoc]
  · intro cards searchTerm activeFilter
    simp only [filteredCards]
    exact List.filter_sublist cards
  · intro c
    unfold matchesSearch jsIncludes
    rw [decide_eq_true_eq]
    show (jsToLower "").data <:+: (jsToLower c.name).data
    have h0 : (jsToLower "").data = [] := rfl
    rw [h0]
    exact List.nil_infix

/-- C5 counterexample: with one page gathered and the next request
throwing, the published card list is empty — the partial accumulator is
discarded, not displayed (the claim would require `[exMidCard]`). -/
theorem fetchData_midloop_counterexample :
    (fetchData (Except.ok [exSet]) 0
        [Except.ok exPageOk, Except.error "network"]).cards = [] ∧
    exPageOk.data.getD [] = [exMidCard] ∧
    (fetchData (Except.ok [exSet]) 0
        [Except.ok exPageOk, Except.error "network"]).cards ≠ [exMidCard] := by
  exact ⟨rfl, rfl, by decide⟩

/-- C5 amended: if a page request fails in the middle of the pagination
loop, the thrown error skips the sort-and-publish step, so the cards
gathered before the failure are discarded — the published card list stays
empty — while the loading flag is still cleared. -/
theorem fetchData_midloop_amended :
    ∀ (setsResp : Except String (List SetInfo)) (now : Int)
      (stream : List (Except String Page)) (e : String),
      collectLoopE stream = Except.error e →
      (fetchData setsResp now stream).cards = [] ∧
      (fetchData setsResp now stream).loading = false := by
  intro setsResp now stream e he
  rcases setsResp with e2 | data
  · exact ⟨rfl, rfl⟩
  · rcases h : resolveTarget data now with _ | t
    · constructor <;> simp [fetchData, h]
    · constructor <;> simp [fetchData, h, he]

/-- Witness for the amended C5 at the concrete failing stream. -/
theorem fetchData_midloop_amended_witness :
    (fetchData (Except.ok [exSet]) 0
        [Except.ok exPageOk, Except.error "network"]).cards = [] ∧
    (fetchData (Except.ok [exSet]) 0
        [Except.ok exPageOk, Except.error "network"]).loading = false :=
  fetchData_midloop_amended (Except.ok [exSet]) 0
    [Except.ok exPageOk, Except.error "network"] "network" rfl

/-- C6 counterexample: for a multi-faced card with absent top-level
`colors`, the filter's color list does come from the first face (two
colors, so it passes the multicolor filter), but the sort's color-class
ranking does not: `getColorIndex` yields the colorless rank 6 instead of
the multicolor rank 5, so the card sorts after a true colorless card of
lower cost instead of before it. -/
theorem faceColors_sort_counterexample :
    cardColors exMdfc = ["W", "U"] ∧
    passesFilter (some "M") exMdfc = true ∧
    getColorIndex exMdfc = 6 ∧
    ¬ getColorIndex exMdfc = 5 ∧
    sortCards [exColorless, exMdfc] = [exColorless, exMdfc] := by
  refine ⟨rfl, rfl, rfl, by decide, by decide⟩

/-- C6 amended: for a multi-faced card whose top-level field is absent,
the view predicate's color list and the displayed image fall back to the
first face, but the sort's color-class ranking reads only the top-level
`colors` field and classifies such a card as colorless (rank 6). -/
theorem faceColors_amended :
    ∀ (c : Card) (f : Face) (fs : List Face),
      (c.colors = none → c.card_faces = some (f :: fs) →
        cardColors c = f.colors.getD [] ∧ getColorIndex c = 6) ∧
      (c.image = none → c.card_faces = some (f :: fs) →
        cardImage c = f.image) := by
  intro c f fs
  constructor
  · intro h1 h2
    constructor
    · simp [cardColors, h1, h2]
    · simp [getColorIndex, h1]
  · intro h1 h2
    simp [cardImage, h1, h2]

/-- Witness for the amended C6 at the concrete multi-faced card. -/
theorem faceColors_amended_witness :
    cardColors exMdfc = exFace.colors.getD [] ∧ getColorIndex exMdfc = 6 :=
  (faceColors_amended exMdfc exFace []).1 rfl rfl

/-- C1: the sort is a permutation ordered by color-class rank (W=0, U=1,
B=2, R=3, G=4, multicolor=5, colorless=6; zero or absent colors are
colorless, one color takes that color's rank, more than one is multicolor)
with converted cost as ascending tiebreaker, and cards equal on both keys
keep their input order (the sort is stable); the four-card example sorts to
W(1), R(3), multicolor-UB(2), colorless(1). -/
theorem sortCards_spec :
    (∀ l : List Card, (sortCards l).Perm l) ∧
    (∀ l : List Card, (sortCards l).Pairwise fun a b =>
      getColorIndex a < getColorIndex b ∨
        (getColorIndex a = getColorIndex b ∧ a.cmc ≤ b.cmc)) ∧
    (∀ (l : List Card) (k : Nat × Nat),
      (sortCards l).filter (fun c => decide (sortKey c = k)) =
        l.filter (fun c => decide (sortKey c = k))) ∧
    (∀ c : Card, c.colors = none ∨ c.colors = some [] → getColorIndex c = 6) ∧
    (∀ (c : Card) (cs : List String), c.colors = some cs → 1 < cs.length →
      getColorIndex c = 5) ∧
    (∀ c : Card,
      (c.colors = some ["W"] → getColorIndex c = 0) ∧
      (c.colors = some ["U"] → getColorIndex c = 1) ∧
      (c.colors = some ["B"] → getColorIndex c = 2) ∧
      (c.colors = some ["R"] → getColorIndex c = 3) ∧
      (c.colors = some ["G"] → getColorIndex c = 4)) ∧
    sortCards [exR, exC, exW, exUB] = [exW, exR, exUB, exC] := by
  refine ⟨?_, ?_, ?_, ?_, ?_, ?_, by decide⟩
  · intro l
    exact List.perm_insertionSort cardLE l
  · intro l
    have h := List.sorted_insertionSort cardLE l
    exact h.imp fun hab => (cardLE_iff _ _).mp hab
  · intro l k
    have hsub0 : (l.filter fun c => decide (sortKey c = k)).Sublist l :=
      List.filter_sublist l
    have hpair : (l.filter fun c => decide (sortKey c = k)).Pairwise cardLE := by
      apply List.pairwise_of_forall_mem_list
      intro a ha b hb
      have ha2 := (List.mem_filter.mp ha).2
      have hb2 := (List.mem_filter.mp hb).2
      rw [decide_eq_true_eq] at ha2 hb2
      have h3 : sortKey a = sortKey b := ha2.trans hb2.symm
      rw [sortKey, sortKey, Prod.mk.injEq] at h3
      rw [cardLE_iff]
      exact Or.inr ⟨h3.1, le_of_eq h3.2⟩
    have hsub : (l.filter fun c => decide (sortKey c = k)).Sublist (sortCards l) :=
      List.sublist_insertionSort hpair hsub0
    have hself : ((l.filter fun c => decide (sortKey c = k)).filter
        fun c => decide (sortKey c = k)) = l.filter fun c => decide (sortKey c = k) :=
      List.filter_eq_self.mpr fun a ha => (List.mem_filter.mp ha).2
    have hsub2 : (l.filter fun c => decide (sortKey c = k)).Sublist
        ((sortCards l).filter fun c => decide (sortKey c = k)) := by
      rw [← hself]
      exact hsub.filter _
    have hlen : ((l.filter fun c => decide (sortKey c = k)).length) =
        ((sortCards l).filter fun c => decide (sortKey c = k)).length :=
      (((List.perm_insertionSort cardLE l).filter _).length_eq).symm
    exact (hsub2.eq_of_length hlen).symm
  · intro c hc
    rcases hc with h | h <;> simp [getColorIndex, h]
  · intro c cs h1 h2
    simp only [getColorIndex, h1]
    rw [if_neg (by omega), if_pos h2]
  · intro c
    refine ⟨?_, ?_, ?_, ?_, ?_⟩ <;> intro h <;>
      simp [getColorIndex, h, COLOR_ORDER]

/-- Witness for C1: the rank facts applied at concrete cards. -/
theorem sortCards_spec_witness :
    (exW.colors = some ["W"] ∧ getColorIndex exW = 0) ∧
      (exC.colors = some [] ∧ getColorIndex exC = 6) :=
  ⟨⟨rfl, (sortCards_spec.2.2.2.2.2.1 exW).1 rfl⟩,
    ⟨rfl, sortCards_spec.2.2.2.1 exC (Or.inr rfl)⟩⟩

/-- In a pairwise-ordered list, the last element is a member and every
member either is it or relates to it. -/
theorem pairwise_getLast_max {α : Type} {r : α → α → Prop} :
    ∀ {l : List α}, l.Pairwise r → ∀ {t : α}, l.getLast? = some t →
      t ∈ l ∧ ∀ s ∈ l, s = t ∨ r s t := by
  intro l
  induction l with
  | nil => intro _ t ht; cases ht
  | cons a tl ih =>
    intro hp t ht
    cases tl with
    | nil =>
      have ha : a = t := by simpa using ht
      subst ha
      refine ⟨List.mem_cons_self a [], ?_⟩
      intro s hs
      left
      simpa using hs
    | cons b tl2 =>
      rw [List.getLast?_cons_cons] at ht
      have h2 := ih hp.of_cons ht
      refine ⟨List.mem_cons_of_mem a h2.1, ?_⟩
      intro s hs
      rcases List.mem_cons.mp hs with h | h
      · subst h
        exact Or.inr (List.rel_of_pairwise_cons hp h2.1)
      · exact h2.2 s h

/-- Membership in the sorted candidate list of `resolveTarget`. -/
theorem mem_sorted_candidates {data : List SetInfo} {now : Int} {s : SetInfo} :
    s ∈ List.insertionSort dateLE
        ((data.filter fun s => isTrackable s).filter fun s => inWindow now s) ↔
      s ∈ data ∧ isTrackable s = true ∧ inWindow now s = true := by
  rw [List.mem_insertionSort, List.mem_filter, List.mem_filter, and_assoc]

/-- C3: `resolveTarget` returns a trackable in-window release; it is the
earliest trackable release dated at or after `now` when one exists, and
otherwise the latest-dated trackable candidate in the retention window
(existing whenever any candidate does); on the three-release example with
`ccc` untrackable it returns `bbb`. -/
theorem resolveTarget_spec :
    (∀ (data : List SetInfo) (now : Int) (t : SetInfo),
      resolveTarget data now = some t →
        isTrackable t = true ∧ inWindow now t = true ∧
        ((now ≤ t.released_at ∧
            ∀ s ∈ data, isTrackable s = true → now ≤ s.released_at →
              t.released_at ≤ s.released_at) ∨
          (t.released_at < now ∧
            (∀ s ∈ data, isTrackable s = true → s.released_at < now) ∧
            (∀ s ∈ data, isTrackable s = true → inWindow now s = true →
              s.released_at ≤ t.released_at)))) ∧
    (∀ (data : List SetInfo) (now : Int),
      (∃ s ∈ data, isTrackable s = true ∧ inWindow now s = true) →
      ∃ t, resolveTarget data now = some t) ∧
    resolveTarget [exAAA, exBBB, exCCC] 0 = some exBBB := by
  refine ⟨?_, ?_, by decide⟩
  · intro data now t h
    have hpair_sorted := List.sorted_insertionSort dateLE
      ((data.filter fun s => isTrackable s).filter fun s => inWindow now s)
    simp only [resolveTarget] at h
    split at h
    · rename_i t0 rest heq
      injection h with h
      subst h
      have ht_fut : t0 ∈ (List.insertionSort dateLE
          ((data.filter fun s => isTrackable s).filter fun s =>
            inWindow now s)).filter fun s => decide (now ≤ s.released_at) := by
        rw [heq]
        exact List.mem_cons_self _ _
      have ht_mem := List.mem_filter.mp ht_fut
      have ht_future : now ≤ t0.released_at := by
        have h2 := ht_mem.2
        rwa [decide_eq_true_eq] at h2
      have ht_props := mem_sorted_candidates.mp ht_mem.1
      refine ⟨ht_props.2.1, ht_props.2.2, Or.inl ⟨ht_future, ?_⟩⟩
      intro s hs hst hsf
      have hsw : inWindow now s = true := by
        simp only [inWindow, decide_eq_true_eq]
        omega
      have hs_sorted := mem_sorted_candidates.mpr ⟨hs, hst, hsw⟩
      have hs_fut : s ∈ (List.insertionSort dateLE
          ((data.filter fun s => isTrackable s).filter fun s =>
            inWindow now s)).filter fun s => decide (now ≤ s.released_at) :=
        List.mem_filter.mpr ⟨hs_sorted, decide_eq_true hsf⟩
      rw [heq] at hs_fut
      have hfp : (t0 :: rest).Pairwise dateLE := by
        rw [← heq]
        exact List.Pairwise.filter _ hpair_sorted
      rcases List.mem_cons.mp hs_fut with h2 | h2
      · subst h2
        exact le_refl _
      · exact List.rel_of_pairwise_cons hfp h2
    · rename_i heq
      have hmax := pairwise_getLast_max hpair_sorted h
      have ht_props := mem_sorted_candidates.mp hmax.1
      have hnofut : ∀ s ∈ data, isTrackable s = true → s.released_at < now := by
        intro s hs hst
        by_contra hge
        push_neg at hge
        have hsw : inWindow now s = true := by
          simp only [inWindow, decide_eq_true_eq]
          omega
        have hs_sorted := mem_sorted_candidates.mpr ⟨hs, hst, hsw⟩
        have hs_fut : s ∈ (List.insertionSort dateLE
            ((data.filter fun s => isTrackable s).filter fun s =>
              inWindow now s)).filter fun s => decide (now ≤ s.released_at) :=
          List.mem_filter.mpr ⟨hs_sorted, decide_eq_true hge⟩
        rw [heq] at hs_fut
        exact List.not_mem_nil s hs_fut
      have ht_past : t.released_at < now :=
        hnofut t ht_props.1 ht_props.2.1
      refine ⟨ht_props.2.1, ht_props.2.2, Or.inr ⟨ht_past, hnofut, ?_⟩⟩
      intro s hs hst hsw
      have hs_sorted := mem_sorted_candidates.mpr ⟨hs, hst, hsw⟩
      rcases hmax.2 s hs_sorted with h2 | h2
      · subst h2
        exact le_refl _
      · exact h2
  · rintro data now ⟨s, hs, hst, hsw⟩
    have hs_sorted := mem_sorted_candidates.mpr ⟨hs, hst, hsw⟩
    have hne : List.insertionSort dateLE
        ((data.filter fun s => isTrackable s).filter fun s =>
          inWindow now s) ≠ [] := by
      intro hnil
      rw [hnil] at hs_sorted
      exact List.not_mem_nil s hs_sorted
    simp only [resolveTarget]
    split
    · exact ⟨_, rfl⟩
    · rcases Option.isSome_iff_exists.mp (List.getLast?_isSome.mpr hne) with ⟨t, ht⟩
      exact ⟨t, ht⟩

/-- Witness for C3: the characterization applied at the concrete example. -/
theorem resolveTarget_spec_witness :
    isTrackable exBBB = true ∧ inWindow 0 exBBB = true ∧
      ((0 ≤ exBBB.released_at ∧
          ∀ s ∈ [exAAA, exBBB, exCCC], isTrackable s = true →
            0 ≤ s.released_at → exBBB.released_at ≤ s.released_at) ∨
        (exBBB.released_at < 0 ∧
          (∀ s ∈ [exAAA, exBBB, exCCC], isTrackable s = true →
            s.released_at < 0) ∧
          (∀ s ∈ [exAAA, exBBB, exCCC], isTrackable s = true →
            inWindow 0 s = true → s.released_at ≤ exBBB.released_at))) :=
  resolveTarget_spec.1 [exAAA, exBBB, exCCC] 0 exBBB resolveTarget_spec.2.2

end MtgSpoiler
